import Mathlib

/-!
Shallow embedding of the HostelConnect client logic: the booking lifecycle
operations (status update, student cancellation, booking creation), the
hostel search filter, the listing form validation, the amenities
write/read round trip, and the chat assistant bridge.  Each definition is
translated from the corresponding TypeScript function; databases are
modelled as lists of rows and the hosted backend's filtered update/delete
primitives as the corresponding list operations.
-/

namespace HostelConnect

/-- Status column of the `bookings` table: `"pending" | "approved" | "rejected"`. -/
inductive BookingStatus where
  | pending
  | approved
  | rejected
deriving DecidableEq

/-- Error taxonomy of the specification for booking operations.  The embedded
operations return `Except BookingError` so that "fails with E" claims can be
stated; an operation that the source never makes fail always returns `ok`. -/
inductive BookingError where
  | notSignedIn
  | notAuthorized
  | invalidTransition
  | duplicateRequest
deriving DecidableEq

/-- A row of the `bookings` table (id, hostel_id, student_id, status, message). -/
structure Booking where
  id : Nat
  hostelId : Nat
  studentId : Nat
  status : BookingStatus
  message : Option String
deriving DecidableEq

/-- `updateBookingMutation` (OwnerDashboard) and `handleBookingStatusUpdate`
(AdminDashboard): `supabase.from('bookings').update({ status }).eq('id', bookingId)`.
The update is filtered on the id alone — there is no filter on the current
status and no branch that rejects a terminal booking — so every row with the
given id has its status overwritten, and the operation always succeeds. -/
def updateBookingStatus (store : List Booking) (bookingId : Nat)
    (newStatus : BookingStatus) : Except BookingError (List Booking) :=
  Except.ok (store.map fun b =>
    if b.id = bookingId then { b with status := newStatus } else b)

/-- `cancelBookingMutation` (StudentDashboard):
`supabase.from('bookings').delete().eq('id', bookingId).eq('student_id', user?.id).eq('status', 'pending')`.
A filtered delete removes exactly the rows matching all three filters and
succeeds regardless of how many rows (possibly zero) matched. -/
def cancelBooking (store : List Booking) (callerId bookingId : Nat) :
    Except BookingError (List Booking) :=
  Except.ok (store.filter fun b =>
    decide ¬(b.id = bookingId ∧ b.studentId = callerId ∧ b.status = BookingStatus.pending))

/-- `fetchHostelData` (HostelDetail): `select('*').eq('hostel_id', id).eq('student_id', user.id)`
followed by `bookingData.length > 0`.  True when any booking — of any
status — exists for the student/hostel pair; used only to disable the
"Book Now" button. -/
def hasRequestedBefore (store : List Booking) (studentId hostelId : Nat) : Bool :=
  decide (0 < (store.filter fun b =>
    decide (b.hostelId = hostelId ∧ b.studentId = studentId)).length)

/-- `submitBookingRequest` (HostelDetail):
`supabase.from('bookings').insert({ hostel_id, student_id, status: 'pending', message: null })`.
The insert is unconditional: no duplicate check of any kind is performed
before it.  `newId` stands for the backend-generated row id. -/
def submitBookingRequest (store : List Booking) (studentId hostelId newId : Nat) :
    Except BookingError (List Booking) :=
  Except.ok (store ++
    [{ id := newId, hostelId := hostelId, studentId := studentId,
       status := BookingStatus.pending, message := none }])

/-- Role column of the `profiles` table. -/
inductive Role where
  | student
  | owner
  | admin
deriving DecidableEq

/-- Outcome of the `handleRequestToBook` gate (HostelDetail). -/
inductive BookGate where
  | redirectToLogin
  | onlyStudents
  | openDialog
deriving DecidableEq

/-- `handleRequestToBook` (HostelDetail): unauthenticated callers are sent to
the sign-in flow; a caller whose role is not `student` gets the
"Only students can request bookings" notice; otherwise the request dialog
opens. -/
def handleRequestToBook (isAuthenticated : Bool) (role : Role) : BookGate :=
  if isAuthenticated = false then BookGate.redirectToLogin
  else if role ≠ Role.student then BookGate.onlyStudents
  else BookGate.openDialog

/-- The composed CreateBooking flow: the `handleRequestToBook` gate followed,
for a student, by `submitBookingRequest`.  `hostel?` is the hostel loaded by
the detail page (`if (!hostel || !user) return` guards the submit: with no
hostel the submit silently does nothing). -/
def createBooking (isAuthenticated : Bool) (role : Role) (hostel? : Option Nat)
    (store : List Booking) (studentId newId : Nat) :
    Except BookingError (List Booking) :=
  match handleRequestToBook isAuthenticated role with
  | BookGate.redirectToLogin => Except.error BookingError.notSignedIn
  | BookGate.onlyStudents => Except.error BookingError.notAuthorized
  | BookGate.openDialog =>
    match hostel? with
    | none => Except.ok store
    | some hostelId => submitBookingRequest store studentId hostelId newId

/-- Number of pending bookings a store holds for one student/listing pair;
the measure in which the spec states its at-most-one-open-request contract. -/
def pendingCountFor (store : List Booking) (studentId hostelId : Nat) : Nat :=
  (store.filter fun b =>
    decide (b.studentId = studentId ∧ b.hostelId = hostelId ∧
      b.status = BookingStatus.pending)).length

/-- C1 counterexample: a booking already `approved` is not protected — the
status update on it succeeds and overwrites the status to `rejected`; it does
not fail with `InvalidTransition` and does not leave the status unchanged. -/
theorem c1_terminal_overwrite_counterexample :
    updateBookingStatus
      [{ id := 1, hostelId := 2, studentId := 3,
         status := BookingStatus.approved, message := none }] 1 BookingStatus.rejected
      = Except.ok
      [{ id := 1, hostelId := 2, studentId := 3,
         status := BookingStatus.rejected, message := none }] ∧
    updateBookingStatus
      [{ id := 1, hostelId := 2, studentId := 3,
         status := BookingStatus.approved, message := none }] 1 BookingStatus.rejected
      ≠ Except.error BookingError.invalidTransition := by
  refine ⟨rfl, ?_⟩
  intro h
  exact Except.noConfusion h

/-- C1 (amended): `updateBookingStatus` never fails and performs no transition
check: it unconditionally overwrites the status of every booking carrying the
target id — whatever its current status, terminal included — and leaves all
other bookings unchanged. -/
theorem c1_update_overwrites_unconditionally (store : List Booking)
    (bookingId : Nat) (newStatus : BookingStatus) :
    ∃ updated, updateBookingStatus store bookingId newStatus = Except.ok updated ∧
      updated.length = store.length ∧
      (∀ b ∈ updated, b.id = bookingId → b.status = newStatus) ∧
      (∀ b ∈ updated, b.id ≠ bookingId → b ∈ store) := by
  refine ⟨_, rfl, by simp, ?_, ?_⟩
  · intro b hb hid
    rcases List.mem_map.mp hb with ⟨a, _, rfl⟩
    by_cases h : a.id = bookingId
    · simp [h]
    · simp [h] at hid
  · intro b hb hid
    rcases List.mem_map.mp hb with ⟨a, ha, rfl⟩
    by_cases h : a.id = bookingId
    · simp [h] at hid
    · simpa [h] using ha

/-- C2 counterexample: the student cancel operation applied to the student's
own `approved` booking reports success with the booking still present; it does
not fail with `InvalidTransition`. -/
theorem c2_cancel_terminal_counterexample :
    cancelBooking
      [{ id := 1, hostelId := 2, studentId := 7,
         status := BookingStatus.approved, message := none }] 7 1
      = Except.ok
      [{ id := 1, hostelId := 2, studentId := 7,
         status := BookingStatus.approved, message := none }] ∧
    cancelBooking
      [{ id := 1, hostelId := 2, studentId := 7,
         status := BookingStatus.approved, message := none }] 7 1
      ≠ Except.error BookingError.invalidTransition := by
  refine ⟨rfl, ?_⟩
  intro h
  exact Except.noConfusion h

/-- C2 (amended): the student cancel deletes the student's own booking when it
is `pending`; on a booking whose status is not `pending` the filtered delete
matches nothing, so the booking survives and the operation still reports
success — it never fails with `InvalidTransition`. -/
theorem c2_cancel_pending_deletes_terminal_survives (store : List Booking)
    (callerId bookingId : Nat) :
    ∃ remaining, cancelBooking store callerId bookingId = Except.ok remaining ∧
      (∀ b ∈ store, b.id = bookingId → b.studentId = callerId →
        b.status = BookingStatus.pending → b ∉ remaining) ∧
      (∀ b ∈ store, b.status ≠ BookingStatus.pending → b ∈ remaining) := by
  refine ⟨_, rfl, ?_, ?_⟩
  · intro b hb h1 h2 h3 hmem
    rcases List.mem_filter.mp hmem with ⟨_, hp⟩
    simp [h1, h2, h3] at hp
  · intro b hb hs
    refine List.mem_filter.mpr ⟨hb, ?_⟩
    simp only [decide_eq_true_eq]
    intro hc
    exact hs hc.2.2

/-- C3: the cancel delete is filtered on the booking id, the caller's student
id and `status = pending`: a booking survives exactly when it fails one of the
three filters, so approved/rejected bookings and other students' bookings are
never deleted, and the operation reports success in every case. -/
theorem c3_cancel_delete_filter_characterization (store : List Booking)
    (callerId bookingId : Nat) :
    ∃ remaining, cancelBooking store callerId bookingId = Except.ok remaining ∧
      (∀ b, b ∈ remaining ↔ b ∈ store ∧
        ¬(b.id = bookingId ∧ b.studentId = callerId ∧
          b.status = BookingStatus.pending)) ∧
      (∀ b ∈ store, b.status = BookingStatus.approved ∨
        b.status = BookingStatus.rejected ∨ b.studentId ≠ callerId →
        b ∈ remaining) := by
  refine ⟨_, rfl, fun b => ?_, ?_⟩
  · simp only [List.mem_filter, decide_eq_true_eq]
  · intro b hb hcase
    refine List.mem_filter.mpr ⟨hb, ?_⟩
    simp only [decide_eq_true_eq]
    intro hc
    rcases hcase with h | h | h
    · rw [hc.2.2] at h
      exact BookingStatus.noConfusion h
    · rw [hc.2.2] at h
      exact BookingStatus.noConfusion h
    · exact h hc.2.1

/-- C4 counterexample: with a `pending` booking already stored for student 7 on
hostel 5, submitting a second request for the same pair succeeds — it does not
fail with `DuplicateRequest` — and leaves two pending bookings for the pair. -/
theorem c4_duplicate_pending_counterexample :
    submitBookingRequest
      [{ id := 1, hostelId := 5, studentId := 7,
         status := BookingStatus.pending, message := none }] 7 5 2
      = Except.ok
      [{ id := 1, hostelId := 5, studentId := 7,
         status := BookingStatus.pending, message := none },
       { id := 2, hostelId := 5, studentId := 7,
         status := BookingStatus.pending, message := none }] ∧
    submitBookingRequest
      [{ id := 1, hostelId := 5, studentId := 7,
         status := BookingStatus.pending, message := none }] 7 5 2
      ≠ Except.error BookingError.duplicateRequest ∧
    pendingCountFor
      [{ id := 1, hostelId := 5, studentId := 7,
         status := BookingStatus.pending, message := none },
       { id := 2, hostelId := 5, studentId := 7,
         status := BookingStatus.pending, message := none }] 7 5 = 2 := by
  refine ⟨rfl, ?_, rfl⟩
  intro h
  exact Except.noConfusion h

/-- C4 (amended): the booking submission performs no duplicate check — it
always succeeds and appends a fresh `pending` booking, even when a pending
booking for the same pair exists; the only duplicate guard in the code is the
UI disable flag, which is true exactly when some booking of any status exists
for the student/hostel pair. -/
theorem c4_insert_unconditional_ui_gate_any_status (store : List Booking)
    (studentId hostelId newId : Nat) :
    submitBookingRequest store studentId hostelId newId
      = Except.ok (store ++
        [{ id := newId, hostelId := hostelId, studentId := studentId,
           status := BookingStatus.pending, message := none }]) ∧
    (hasRequestedBefore store studentId hostelId = true ↔
      ∃ b ∈ store, b.studentId = studentId ∧ b.hostelId = hostelId) := by
  refine ⟨rfl, ?_⟩
  simp only [hasRequestedBefore, ← List.countP_eq_length_filter,
    decide_eq_true_eq, List.countP_pos_iff]
  constructor
  · rintro ⟨b, hb, hp⟩
    exact ⟨b, hb, hp.2, hp.1⟩
  · rintro ⟨b, hb, h1, h2⟩
    exact ⟨b, hb, h2, h1⟩

/-- C5: an authenticated caller whose role is not `student` is stopped by the
role gate with the not-authorized notice and no booking is created; an
authenticated student caller on an existing listing gets a new booking whose
initial status is `pending`. -/
theorem c5_create_booking_role_gate (role : Role) (hostel? : Option Nat)
    (store : List Booking) (studentId newId hostelId : Nat) :
    (role ≠ Role.student →
      createBooking true role hostel? store studentId newId
        = Except.error BookingError.notAuthorized) ∧
    createBooking true Role.student (some hostelId) store studentId newId
      = Except.ok (store ++
        [{ id := newId, hostelId := hostelId, studentId := studentId,
           status := BookingStatus.pending, message := none }]) := by
  constructor
  · intro h
    cases role with
    | student => exact absurd rfl h
    | owner => rfl
    | admin => rfl
  · rfl

/-- The seven boolean amenity flags of the `amenities` table
(wifi, water, electricity, security, furniture, kitchen, bathroom). -/
structure AmenityFlags where
  wifi : Bool
  water : Bool
  electricity : Bool
  security : Bool
  furniture : Bool
  kitchen : Bool
  bathroom : Bool
deriving DecidableEq

/-- A hostel record as the client consumes it (the `Hostel` interface of
`HostelCard`): id, name, location, price, rooms, optional description,
amenity flags, image list, owner. -/
structure Hostel where
  id : Nat
  name : String
  location : String
  price : Int
  rooms : Nat
  description : Option String
  amenities : AmenityFlags
  images : List String
  ownerId : Nat
deriving DecidableEq

/-- The `searchForm` state of `HostelSearch`: location substring, price
bounds, and the requested amenity flags. -/
structure SearchForm where
  location : String
  minPrice : Int
  maxPrice : Int
  amenities : AmenityFlags
deriving DecidableEq

/-- Model of JavaScript `toLowerCase` read as a character sequence: each
character lowered in place. -/
def lowerData (s : String) : List Char := s.data.map Char.toLower

/-- One hostel passes the `HostelSearch` filter: mirrors the three
early-return checks of the filter effect — the location check is skipped when
the search string is empty (falsy), the price must lie inside
`[minPrice, maxPrice]`, and each requested amenity flag must be set on the
hostel (`if (value && !hostel.amenities[key]) return false`). -/
def matchesFilter (form : SearchForm) (h : Hostel) : Bool :=
  (decide (form.location = "") ||
    decide (lowerData form.location <:+: lowerData h.location)) &&
  (decide (form.minPrice ≤ h.price) && decide (h.price ≤ form.maxPrice)) &&
  ((!form.amenities.wifi || h.amenities.wifi) &&
   (!form.amenities.water || h.amenities.water) &&
   (!form.amenities.electricity || h.amenities.electricity) &&
   (!form.amenities.security || h.amenities.security) &&
   (!form.amenities.furniture || h.amenities.furniture) &&
   (!form.amenities.kitchen || h.amenities.kitchen) &&
   (!form.amenities.bathroom || h.amenities.bathroom))

/-- The filter effect of `HostelSearch`: it returns early (leaving the list
untouched) when no hostels are loaded, otherwise keeps the hostels matching
the form. -/
def applyFilters (form : SearchForm) (hostels : List Hostel) : List Hostel :=
  if hostels.isEmpty then hostels else hostels.filter (matchesFilter form)

/-- C6: a hostel is in the filtered result exactly when it is among the
loaded hostels, its lower-cased location contains the lower-cased search
string, its price lies in `[minPrice, maxPrice]`, and every amenity flag
requested by the form is set on the hostel; failing any one condition
excludes it. -/
theorem c6_search_filter_characterization (form : SearchForm)
    (hostels : List Hostel) (h : Hostel) :
    h ∈ applyFilters form hostels ↔
      h ∈ hostels ∧
      (lowerData form.location <:+: lowerData h.location) ∧
      (form.minPrice ≤ h.price ∧ h.price ≤ form.maxPrice) ∧
      ((form.amenities.wifi = true → h.amenities.wifi = true) ∧
       (form.amenities.water = true → h.amenities.water = true) ∧
       (form.amenities.electricity = true → h.amenities.electricity = true) ∧
       (form.amenities.security = true → h.amenities.security = true) ∧
       (form.amenities.furniture = true → h.amenities.furniture = true) ∧
       (form.amenities.kitchen = true → h.amenities.kitchen = true) ∧
       (form.amenities.bathroom = true → h.amenities.bathroom = true)) := by
  have hflag : ∀ a b : Bool, ((!a || b) = true) = (a = true → b = true) := by
    intro a b
    cases a <;> simp
  have hloc : ((decide (form.location = "") ||
      decide (lowerData form.location <:+: lowerData h.location)) = true)
      = (lowerData form.location <:+: lowerData h.location) := by
    simp only [Bool.or_eq_true, decide_eq_true_eq, eq_iff_iff]
    constructor
    · rintro (h0 | hinf)
      · rw [h0]
        exact List.nil_infix
      · exact hinf
    · exact Or.inr
  cases hostels with
  | nil => simp [applyFilters]
  | cons x xs =>
    rw [show applyFilters form (x :: xs) = (x :: xs).filter (matchesFilter form) from rfl,
      List.mem_filter, matchesFilter]
    simp only [Bool.and_eq_true, hflag, hloc, decide_eq_true_eq]
    tauto

/-- A row of the `amenities` table: a hostel id with the seven flags. -/
structure AmenityRow where
  hostelId : Nat
  flags : AmenityFlags
deriving DecidableEq

/-- The amenities insert of `handleSubmit` (HostelCreate):
`supabase.from('amenities').insert({ hostel_id: hostelId, ...formData.amenities })`. -/
def insertAmenities (db : List AmenityRow) (hostelId : Nat)
    (a : AmenityFlags) : List AmenityRow :=
  db ++ [{ hostelId := hostelId, flags := a }]

/-- The amenities read-back of `fetchHostelData` (HostelDetail and
StudentDashboard): the first `amenities` row of the hostel is taken
(`hostelData.amenities[0]`), defaulting to all-false when absent, and each
flag is read with `|| false`. -/
def readAmenities (db : List AmenityRow) (hostelId : Nat) : AmenityFlags :=
  match (db.filter fun r => decide (r.hostelId = hostelId)).head? with
  | none =>
    { wifi := false, water := false, electricity := false, security := false,
      furniture := false, kitchen := false, bathroom := false }
  | some r =>
    { wifi := r.flags.wifi || false, water := r.flags.water || false,
      electricity := r.flags.electricity || false,
      security := r.flags.security || false,
      furniture := r.flags.furniture || false,
      kitchen := r.flags.kitchen || false,
      bathroom := r.flags.bathroom || false }

/-- C8: writing a hostel's amenity set and reading it back round-trips — for
a freshly created hostel (its id has no amenities row yet), the flags read
back equal the flags inserted. -/
theorem c8_amenities_round_trip (db : List AmenityRow) (hostelId : Nat)
    (a : AmenityFlags) (hfresh : ∀ r ∈ db, r.hostelId ≠ hostelId) :
    readAmenities (insertAmenities db hostelId a) hostelId = a := by
  have hnil : db.filter (fun r => decide (r.hostelId = hostelId)) = [] := by
    rw [List.filter_eq_nil_iff]
    intro r hr
    simpa using hfresh r hr
  rw [readAmenities, insertAmenities, List.filter_append, hnil]
  simp

/-- C8 witness: the round trip evaluated on an empty database and a concrete
amenity set. -/
theorem c8_amenities_round_trip_witness :
    readAmenities (insertAmenities [] 1
      { wifi := true, water := false, electricity := true, security := false,
        furniture := true, kitchen := false, bathroom := true }) 1
      = { wifi := true, water := false, electricity := true, security := false,
          furniture := true, kitchen := false, bathroom := true } :=
  c8_amenities_round_trip [] 1 _ (by intro r hr; cases hr)

/-- Numeric value of a run of decimal digit characters, most significant
first. -/
def digitsToNat (ds : List Char) : Nat :=
  ds.foldl (fun acc c => acc * 10 + (c.toNat - 48)) 0

/-- Number scanned from the front of a string by JavaScript `parseFloat`:
the denoted value is `mantissa / 10 ^ scale`, negated when `negative`. -/
structure ParsedNumber where
  negative : Bool
  mantissa : Nat
  scale : Nat
deriving DecidableEq

/-- Model of JavaScript `parseFloat` on the decimal grammar the forms
produce: leading whitespace is skipped, an optional sign is read, then
integer digits and an optional fractional part; the result is the parsed
numeric prefix, or `none` (`NaN`) when no digit is found.  Exponent
notation, `Infinity` and non-decimal forms are outside the modelled
grammar. -/
def parseFloat (s : String) : Option ParsedNumber :=
  let cs := s.data.dropWhile Char.isWhitespace
  let signed : Bool × List Char :=
    match cs with
    | '-' :: rest => (true, rest)
    | '+' :: rest => (false, rest)
    | _ => (false, cs)
  let intDigits := signed.2.takeWhile Char.isDigit
  let afterInt := signed.2.dropWhile Char.isDigit
  let fracDigits :=
    match afterInt with
    | '.' :: rest => rest.takeWhile Char.isDigit
    | _ => []
  if intDigits.isEmpty && fracDigits.isEmpty then none
  else some
    { negative := signed.1,
      mantissa := digitsToNat intDigits * 10 ^ fracDigits.length +
        digitsToNat fracDigits,
      scale := fracDigits.length }

/-- Model of JavaScript `parseInt(s, 10)`: leading whitespace skipped,
optional sign, then the run of decimal digits; `none` (`NaN`) when no digit
is found. -/
def parseIntDec (s : String) : Option Int :=
  let cs := s.data.dropWhile Char.isWhitespace
  let signed : Bool × List Char :=
    match cs with
    | '-' :: rest => (true, rest)
    | '+' :: rest => (false, rest)
    | _ => (false, cs)
  let digits := signed.2.takeWhile Char.isDigit
  if digits.isEmpty then none
  else if signed.1 then some (-(digitsToNat digits : Int))
  else some (digitsToNat digits : Int)

/-- Model of JavaScript `String.prototype.trim` read as a character
sequence: leading and trailing whitespace removed. -/
def trimData (s : String) : List Char :=
  ((s.data.dropWhile Char.isWhitespace).reverse.dropWhile
    Char.isWhitespace).reverse

/-- `validateName` (src/utils/validation.ts): `name.trim().length >= 2`. -/
def validateName (name : String) : Bool :=
  decide (2 ≤ (trimData name).length)

/-- `validatePrice` (src/utils/validation.ts): `parseFloat(price)` must not
be `NaN` and must be `> 0`.  The parsed value `±mantissa / 10^scale` is
positive exactly when the sign is positive and the mantissa is nonzero. -/
def validatePrice (price : String) : Bool :=
  match parseFloat price with
  | none => false
  | some p => !p.negative && decide (0 < p.mantissa)

/-- `validateRooms` (src/utils/validation.ts): `parseInt(rooms, 10)` must
not be `NaN` and must be `> 0`. -/
def validateRooms (rooms : String) : Bool :=
  match parseIntDec rooms with
  | none => false
  | some n => decide (0 < n)

/-- `getFormErrors` as invoked by `validateForm` of the hostel create/edit
form: the form passes `{name, location, price, rooms}`; `getFormErrors` has
branches for `name`, `email`, `password`, `phone`, `price` and `rooms` only —
the `email`/`password`/`phone` branches are skipped because those keys are
absent here, and the `location` value, though passed, is ignored because
`getFormErrors` contains no branch for a `location` key. -/
def hostelFormErrors (name _location price rooms : String) :
    List (String × String) :=
  (if validateName name then [] else
    [("name", "Name must be at least 2 characters")]) ++
  (if validatePrice price then [] else
    [("price", "Please enter a valid price")]) ++
  (if validateRooms rooms then [] else
    [("rooms", "Please enter a valid number of rooms")])

/-- `validateForm` (HostelCreate): the submission is valid when
`getFormErrors` reports no error. -/
def validateForm (name location price rooms : String) : Bool :=
  (hostelFormErrors name location price rooms).isEmpty

/-- Outcome of `handleSubmit` (HostelCreate): when `validateForm` fails the
handler returns before any database call, persisting nothing; otherwise it
proceeds to insert the hostel, its amenities and its images. -/
inductive SubmitOutcome where
  | validationFailed (errors : List (String × String))
  | persisted
deriving DecidableEq

/-- `handleSubmit` (HostelCreate) up to its persistence boundary. -/
def handleSubmit (name location price rooms : String) : SubmitOutcome :=
  if validateForm name location price rooms = false then
    SubmitOutcome.validationFailed (hostelFormErrors name location price rooms)
  else SubmitOutcome.persisted

/-- C7: the code evaluated at the failing input — a submission with a valid
name, positive price and positive rooms but an empty (missing) location
passes validation and proceeds to persist, because `getFormErrors` contains
no check for the location field; by contrast a submission with price "0" or
rooms "0" is rejected with nothing persisted, as the claim states. -/
theorem c7_missing_location_passes_validation :
    validateForm "Sunrise Hostel" "" "100" "2" = true ∧
    handleSubmit "Sunrise Hostel" "" "100" "2" = SubmitOutcome.persisted ∧
    validateForm "Sunrise Hostel" "Kutus" "0" "2" = false ∧
    handleSubmit "Sunrise Hostel" "Kutus" "0" "2"
      = SubmitOutcome.validationFailed
        [("price", "Please enter a valid price")] ∧
    validateForm "Sunrise Hostel" "Kutus" "100" "0" = false := by
  refine ⟨rfl, rfl, rfl, rfl, rfl⟩

/-- Per-candidate reply text of the external chat API as the function body
reads it: `content.parts[0].text` when present. -/
structure GeminiData where
  errorMessage : Option String
  candidates : List (Option String)
deriving DecidableEq

/-- The external chat-completion response as consumed: HTTP success flag and
parsed body. -/
structure UpstreamResponse where
  ok : Bool
  data : GeminiData
deriving DecidableEq

/-- What the edge function returns to the client: a 200 body with the reply
text, or a 500 body with an error message. -/
inductive ServeResult where
  | success (body : String)
  | failure (message : String)
deriving DecidableEq

/-- The fallback reply substituted by
`data.candidates?.[0]?.content?.parts?.[0]?.text || "Sorry, ..."`. -/
def fallbackText : String := "Sorry, I couldn\x27t generate a response."

/-- Candidate extraction of the chat-with-gemini handler:
`data.candidates?.[0]?.content?.parts?.[0]?.text || fallback` — the first
candidate's first part text, with the falsy cases (no candidate, missing
parts, empty text) replaced by the fallback apology. -/
def extractResponseText (d : GeminiData) : String :=
  match d.candidates.head? with
  | some (some t) => if t = "" then fallbackText else t
  | some none => fallbackText
  | none => fallbackText

/-- The chat-with-gemini request handler after the upstream call: a non-ok
upstream status throws (caught and returned as a 500 with
`data.error?.message || "Failed to get response from Gemini API"`); an ok
status returns a 200 whose body is the extracted candidate text. -/
def serveHandler (resp : UpstreamResponse) : ServeResult :=
  if resp.ok = false then
    ServeResult.failure
      ((resp.data.errorMessage).getD "Failed to get response from Gemini API")
  else
    ServeResult.success (extractResponseText resp.data)

/-- What the end user sees from `sendMessage` (ChatContext): the reply
appended as an assistant message on success, or a toast on error. -/
inductive ClientOutcome where
  | assistantMessage (text : String)
  | errorToast (description : String)
deriving DecidableEq

/-- The generic failure notice of `sendMessage`: the caught error is only
logged with `console.error`; the toast shown to the user is this constant. -/
def genericFailureNotice : String := "Failed to get a response. Please try again."

/-- `sendMessage` (ChatContext) on the function result: a function error is
thrown and caught, surfacing only the generic notice; otherwise the reply
body becomes the assistant message. -/
def sendMessageOutcome (r : ServeResult) : ClientOutcome :=
  match r with
  | ServeResult.success body => ClientOutcome.assistantMessage body
  | ServeResult.failure _ => ClientOutcome.errorToast genericFailureNotice

/-- C9 counterexample: an upstream 200 with an empty candidate list does not
fail — the handler substitutes the canned apology and returns success, and
the user sees it as an ordinary assistant message, not a failure notice. -/
theorem c9_empty_candidates_counterexample :
    serveHandler { ok := true, data := { errorMessage := none, candidates := [] } }
      = ServeResult.success fallbackText ∧
    sendMessageOutcome
      (serveHandler { ok := true, data := { errorMessage := none, candidates := [] } })
      = ClientOutcome.assistantMessage fallbackText :=
  ⟨rfl, rfl⟩

/-- C9 (amended): a non-success upstream status makes the operation fail and
the user-visible message is the fixed generic notice whatever the upstream
detail (the detail is only logged); an empty candidate list on a success
status does not fail — the canned apology is returned as the assistant
reply. -/
theorem c9_upstream_error_generic_notice (resp : UpstreamResponse) :
    (resp.ok = false →
      sendMessageOutcome (serveHandler resp)
        = ClientOutcome.errorToast genericFailureNotice) ∧
    (resp.ok = true → resp.data.candidates = [] →
      serveHandler resp = ServeResult.success fallbackText ∧
      sendMessageOutcome (serveHandler resp)
        = ClientOutcome.assistantMessage fallbackText) := by
  obtain ⟨ok, errMsg, cands⟩ := resp
  constructor
  · intro h
    subst h
    rfl
  · intro h hc
    subst h
    subst hc
    exact ⟨rfl, rfl⟩

/-- Message role of the chat context: `'user' | 'assistant'`. -/
inductive MessageRole where
  | user
  | assistant
deriving DecidableEq

/-- A chat message as held in context state (the generated uuid and
timestamp are irrelevant to the claims and omitted). -/
structure ChatMessage where
  role : MessageRole
  content : String
deriving DecidableEq

/-- The chat context state: the ordered transcript and the loading flag,
held only in component memory. -/
structure ChatState where
  messages : List ChatMessage
  isLoading : Bool
deriving DecidableEq

/-- The greeting the provider starts with and `resetChat` restores. -/
def greetingMessage : ChatMessage :=
  { role := MessageRole.assistant,
    content := "Hello! I\x27m your HostelConnect assistant. How can I help you today with finding student accommodation near Kirinyaga University?" }

/-- `resetChat` (ChatContext): replaces the whole state with a single
greeting message and a cleared loading flag, ignoring the previous state. -/
def resetChat (_s : ChatState) : ChatState :=
  { messages := [greetingMessage], isLoading := false }

/-- C10: resetting the chat replaces the conversation, whatever it was, with
exactly one assistant greeting message and clears the loading flag. -/
theorem c10_reset_single_greeting (s : ChatState) :
    resetChat s = { messages := [greetingMessage], isLoading := false } ∧
    (resetChat s).messages.length = 1 ∧
    (resetChat s).messages.head? = some greetingMessage ∧
    greetingMessage.role = MessageRole.assistant ∧
    (resetChat s).isLoading = false :=
  ⟨rfl, rfl, rfl, rfl, rfl⟩

end HostelConnect
